import Mathlib

/-!
Shallow embedding of the dashboard's data-transformation core (`app.py`):
trip-distance filtering, income/diabetes aggregation, BMI preparation and
general-health recoding.  A dataframe is modelled as a list of rows; column
assignment (which in the source mutates the shared table in place) is
modelled by state passing: a function that assigns columns returns the
updated table alongside its result.  Added columns are `Option`-valued
fields that start out `none`.
-/

/-- One taxi-trip record (`taxi_trips` row): pickup coordinates and the
`Trip Miles` column. -/
structure TripRow where
  pickupLat : ℚ
  pickupLon : ℚ
  tripMiles : ℚ
deriving DecidableEq, Repr

/-- One survey respondent (`diabetes_df` row).  The first four fields are the
columns present in the loaded CSV that the program reads
(`Diabetes_binary`, `Income`, `GenHlth`, `BMI`); the `Option` fields are the
columns the preparation functions assign in place (`Has Diabetes`,
`Has Diabetes Bin`, `Diabetic Status`, `General_Health_Assessment`,
`has_diabetes_human_readable`), absent (`none`) until assigned. -/
structure SurveyRow where
  diabetes_binary : Nat
  income : Nat
  genHlth : Nat
  bmi : ℚ
  hasDiabetesCol : Option Bool := none
  hasDiabetesBinCol : Option Bool := none
  diabeticStatusCol : Option String := none
  genHealthAssessCol : Option String := none
  hasDiabetesHRCol : Option String := none
deriving DecidableEq, Repr

/-- `df[df["Trip Miles"].between(length_of_trip - 1, length_of_trip)].copy()`:
pandas `between` is inclusive at both endpoints.  The function assigns no
column, so the table state it returns is the input table. -/
def filter_by_trip_distance (df : List TripRow) (length_of_trip : ℚ) :
    List TripRow × List TripRow :=
  (df.filter (fun r =>
    decide (length_of_trip - 1 ≤ r.tripMiles) && decide (r.tripMiles ≤ length_of_trip)), df)

/-- The income CodeMap (`income_code_to_text` dictionary in
`diabetic_salary_prep`); `none` models a `KeyError` on an undocumented
code. -/
def income_code_to_text : Nat → Option String
  | 1 => some "Less than $10,000"
  | 2 => some "$10,000 - $15,000"
  | 3 => some "$15,000 - $20,000"
  | 4 => some "$20,000 - $25,000"
  | 5 => some "$25,000 - $35,000"
  | 6 => some "$35,000 - $50,000"
  | 7 => some "$50,000 - $75,000"
  | 8 => some "$75,000 or more"
  | 77 => some "Donâ€™t know/Not sure"
  | 99 => some "Refused"
  | _ => none

/-- The general-health CodeMap (`gen_hlth_mapping` dictionary in
`gen_health_prep`). -/
def gen_hlth_mapping : Nat → Option String
  | 1 => some "Excellent"
  | 2 => some "Very Good"
  | 3 => some "Good"
  | 4 => some "Fair"
  | 5 => some "Poor"
  | 7 => some "Don\x27t know / Not Sure"
  | 9 => some "Refused"
  | _ => none

/-- `astype(bool)` applied to a row's 0/1 `Diabetes_binary` value: nonzero
becomes `true`. -/
def rowHasDiabetes (r : SurveyRow) : Bool := r.diabetes_binary != 0

/-- `df['Has Diabetes'] = df['Diabetes_binary'].astype(bool)` (lines 49 and
80): assigns the `Has Diabetes` column on every row. -/
def assignHasDiabetes (df : List SurveyRow) : List SurveyRow :=
  df.map (fun r => { r with hasDiabetesCol := some (rowHasDiabetes r) })

/-- `df[df['Has Diabetes']].copy()` when the status string equals `"True"`,
`df[~df['Has Diabetes']].copy()` otherwise (lines 50-53 and 84-87). -/
def selectByStatus (df : List SurveyRow) (diab_status : String) : List SurveyRow :=
  if diab_status = "True" then df.filter (fun r => r.hasDiabetesCol.getD false)
  else df.filter (fun r => !(r.hasDiabetesCol.getD false))

/-- The groupby key of line 56: the `(Income, Has Diabetes)` column pair. -/
def rowKey (r : SurveyRow) : Nat × Bool := (r.income, r.hasDiabetesCol.getD false)

/-- Lexicographic order on groupby keys: pandas sorts group keys ascending,
with `False < True` on the boolean component. -/
def keyLe (a b : Nat × Bool) : Bool :=
  a.1 < b.1 || (a.1 == b.1 && (!a.2 || b.2))

/-- The distinct groupby keys in sorted order. -/
def sortKeys (ks : List (Nat × Bool)) : List (Nat × Bool) :=
  ks.insertionSort (fun a b => keyLe a b = true)

/-- `df[['Income','Has Diabetes']].groupby(["Income","Has Diabetes"]).size()`
(line 56): one `(income, hasDiabetes, size)` triple per distinct key present,
keys in sorted order. -/
def groupSizes (df : List SurveyRow) : List (Nat × Bool × Nat) :=
  (sortKeys ((df.map rowKey).dedup)).map
    (fun k => (k.1, k.2, (df.filter (fun r => decide (rowKey r = k))).length))

/-- One row of the `diabetes_counts` result table: columns `Income`,
`Has Diabetes`, `Number of Individuals`, `Income Bracket`. -/
structure AggregateRow where
  income : Nat
  hasDiabetes : Bool
  count : Nat
  incomeBracket : String
deriving DecidableEq, Repr

/-- `diabetes_counts['Income'].apply(lambda x: income_code_to_text[x])`
(line 58): recodes every grouped income; a single undocumented code raises
`KeyError`, failing the whole assignment, modelled as `none`. -/
def recodeIncome : List (Nat × Bool × Nat) → Option (List AggregateRow)
  | [] => some []
  | t :: ts =>
    match income_code_to_text t.1, recodeIncome ts with
    | some lbl, some rest => some (⟨t.1, t.2.1, t.2.2, lbl⟩ :: rest)
    | _, _ => none

/-- `diabetic_salary_prep(diabetes_df, diab_status)` (lines 34-59): assigns
`Has Diabetes` on the shared table, selects the partition matching the status
string, groups it by `(Income, Has Diabetes)` with sizes, and recodes incomes
to bracket labels.  Returns the aggregate, `none` on a lookup failure, and
the table state after the call. -/
def diabetic_salary_prep (df : List SurveyRow) (diab_status : String) :
    Option (List AggregateRow) × List SurveyRow :=
  (recodeIncome (groupSizes (selectByStatus (assignHasDiabetes df) diab_status)),
   assignHasDiabetes df)

/-- `"Diabetic" if x else "Non-Diabetic"` applied to a row's
`Has Diabetes Bin` column (line 64). -/
def diabeticStatusStr (r : SurveyRow) : String :=
  if r.hasDiabetesBinCol.getD false then "Diabetic" else "Non-Diabetic"

/-- `diabetic_bmi_prep(diabetes_df)` (lines 62-65): assigns
`Has Diabetes Bin` and then `Diabetic Status` on every row of the shared
table and returns that same table. -/
def diabetic_bmi_prep (df : List SurveyRow) : List SurveyRow :=
  (df.map (fun r => { r with hasDiabetesBinCol := some (rowHasDiabetes r) })).map
    (fun r => { r with diabeticStatusCol := some (diabeticStatusStr r) })

/-- `prepared_diabetes[prepared_diabetes['BMI'] <= max_bmi]` (line 174): the
caller-side inclusive upper-bound BMI filter. -/
def bmi_ceiling_filter (df : List SurveyRow) (max_bmi : ℚ) : List SurveyRow :=
  df.filter (fun r => decide (r.bmi ≤ max_bmi))

/-- `qualitative_data['General_Health_Assessment'] =
qualitative_data['GenHlth'].apply(lambda x: gen_hlth_mapping[int(x)])`
(line 81): assigns the label column on every row, or fails as a whole
(`KeyError`) when any row's code is undocumented. -/
def assignGenHealth : List SurveyRow → Option (List SurveyRow)
  | [] => some []
  | r :: rs =>
    match gen_hlth_mapping r.genHlth, assignGenHealth rs with
    | some g, some rest => some ({ r with genHealthAssessCol := some g } :: rest)
    | _, _ => none

/-- `"Diabetic" if x == 1 else "Non-Diabetic"` applied to a row's
`Diabetes_binary` value (line 82). -/
def diabetesHRStr (r : SurveyRow) : String :=
  if r.diabetes_binary == 1 then "Diabetic" else "Non-Diabetic"

/-- `qualitative_data['has_diabetes_human_readable'] = ...` (line 82):
assigns the human-readable diabetes label on every row. -/
def assignDiabetesHR (df : List SurveyRow) : List SurveyRow :=
  df.map (fun r => { r with hasDiabetesHRCol := some (diabetesHRStr r) })

/-- `gen_health_prep(qualitative_data, diab_status)` (lines 68-88): assigns
`Has Diabetes`, then the general-health label (which can fail), then the
human-readable diabetes label, and returns the partition matching the status
string together with the table state after the call (on a lookup failure the
later assignments never run). -/
def gen_health_prep (df : List SurveyRow) (diab_status : String) :
    Option (List SurveyRow) × List SurveyRow :=
  match assignGenHealth (assignHasDiabetes df) with
  | none => (none, assignHasDiabetes df)
  | some df2 => (some (selectByStatus (assignDiabetesHR df2) diab_status),
                 assignDiabetesHR df2)

/-- Total of the `Number of Individuals` column of an aggregate result. -/
def sumCounts (rows : List AggregateRow) : Nat := (rows.map (fun a => a.count)).sum

/-- The CSV-backed data fields of a row (`Diabetes_binary`, `Income`,
`GenHlth`, `BMI`), without the assigned label columns. -/
def rowData (r : SurveyRow) : Nat × Nat × Nat × ℚ :=
  (r.diabetes_binary, r.income, r.genHlth, r.bmi)

/-- The three-row scenario table of the end-to-end claim:
`{diabetes=1, income=3, genHlth=2}`, `{diabetes=0, income=3, genHlth=4}`,
`{diabetes=1, income=3, genHlth=2}`. -/
def demoSurvey : List SurveyRow :=
  [{ diabetes_binary := 1, income := 3, genHlth := 2, bmi := 0 },
   { diabetes_binary := 0, income := 3, genHlth := 4, bmi := 0 },
   { diabetes_binary := 1, income := 3, genHlth := 2, bmi := 0 }]

/-- C1: on the three-row scenario table, `diabetic_salary_prep` with flag
`"True"` yields exactly one aggregate row, labelled `"$15,000 - $20,000"`
with count 2, and with flag `"False"` exactly one row with the same label
and count 1. -/
theorem c1_salary_scenario :
    (diabetic_salary_prep demoSurvey "True").1 =
      some [{ income := 3, hasDiabetes := true, count := 2,
              incomeBracket := "$15,000 - $20,000" }] ∧
    (diabetic_salary_prep demoSurvey "False").1 =
      some [{ income := 3, hasDiabetes := false, count := 1,
              incomeBracket := "$15,000 - $20,000" }] := by
  constructor <;> rfl

/-- C2: for every trip table and every valid target `t ∈ [1, 25]`, a record
is in the filtered result iff it is a record of the table whose distance
lies in the inclusive window `[t − 1, t]`. -/
theorem c2_trip_window (df : List TripRow) (t : ℚ) (h1 : 1 ≤ t) (h2 : t ≤ 25)
    (r : TripRow) :
    r ∈ (filter_by_trip_distance df t).1 ↔
      r ∈ df ∧ t - 1 ≤ r.tripMiles ∧ r.tripMiles ≤ t := by
  simp [filter_by_trip_distance, List.mem_filter, and_assoc]

/-- Witness for C2 at a concrete table and target. -/
theorem c2_trip_window_check :
    (⟨41, -87, 19/2⟩ : TripRow) ∈
      (filter_by_trip_distance [⟨41, -87, 19/2⟩] 10).1 :=
  (c2_trip_window [⟨41, -87, 19/2⟩] 10 (by norm_num) (by norm_num)
      ⟨41, -87, 19/2⟩).mpr ⟨List.mem_singleton.mpr rfl, by norm_num, by norm_num⟩

/-- C8: `filter_by_trip_distance` leaves its input table unchanged, and a
second call on the table it leaves behind returns a result equal to the
first. -/
theorem c8_filter_pure (df : List TripRow) (t : ℚ) :
    (filter_by_trip_distance df t).2 = df ∧
    (filter_by_trip_distance ((filter_by_trip_distance df t).2) t).1 =
      (filter_by_trip_distance df t).1 :=
  ⟨rfl, rfl⟩

theorem length_filter_add_length_filter_not {α : Type} (p : α → Bool) (l : List α) :
    (l.filter p).length + (l.filter (fun x => !p x)).length = l.length := by
  induction l with
  | nil => rfl
  | cons a l ih =>
    cases h : p a <;> simp [List.filter_cons, h] <;> omega

theorem sum_groupSizes_eq_length (df : List SurveyRow) :
    ((groupSizes df).map (fun t => t.2.2)).sum = df.length := by
  have hcount : ∀ k : Nat × Bool,
      (df.filter (fun r => decide (rowKey r = k))).length
        = @List.count _ instBEqOfDecidableEq k (df.map rowKey) := by
    intro k
    rw [← List.countP_eq_length_filter]
    show List.countP (fun r => decide (rowKey r = k)) df
        = List.countP (fun x => decide (x = k)) (df.map rowKey)
    rw [List.countP_map]
    rfl
  have hperm : List.Perm (sortKeys ((df.map rowKey).dedup)) ((df.map rowKey).dedup) :=
    List.perm_insertionSort _ _
  calc ((groupSizes df).map (fun t => t.2.2)).sum
      = ((sortKeys ((df.map rowKey).dedup)).map
          (fun k => @List.count _ instBEqOfDecidableEq k (df.map rowKey))).sum := by
        simp only [groupSizes, List.map_map, hcount]
        rfl
    _ = (((df.map rowKey).dedup).map
          (fun k => @List.count _ instBEqOfDecidableEq k (df.map rowKey))).sum :=
        (hperm.map _).sum_eq
    _ = (df.map rowKey).length := List.sum_map_count_dedup_eq_length _
    _ = df.length := by simp

theorem sumCounts_recodeIncome {gs : List (Nat × Bool × Nat)} {rows : List AggregateRow}
    (h : recodeIncome gs = some rows) :
    sumCounts rows = (gs.map (fun t => t.2.2)).sum := by
  induction gs generalizing rows with
  | nil =>
    simp only [recodeIncome, Option.some.injEq] at h
    subst h; rfl
  | cons t ts ih =>
    simp only [recodeIncome] at h
    cases hl : income_code_to_text t.1 <;> rw [hl] at h
    · exact absurd h (by simp)
    · cases hr : recodeIncome ts <;> rw [hr] at h
      · exact absurd h (by simp)
      · simp only [Option.some.injEq] at h
        subst h
        have hih := ih hr
        simp only [sumCounts, List.map_cons, List.sum_cons] at hih ⊢
        rw [hih]

theorem selectByStatus_of_ne (df : List SurveyRow) (s : String) (hs : s ≠ "True") :
    selectByStatus df s = df.filter (fun r => !(r.hasDiabetesCol.getD false)) := by
  simp [selectByStatus, hs]

theorem selectByStatus_true (df : List SurveyRow) :
    selectByStatus df "True" = df.filter (fun r => r.hasDiabetesCol.getD false) := rfl

/-- C3: the aggregator's two partitions are exhaustive and disjoint — every
record of the (column-assigned) table lies in exactly one of the two
selections — and whenever both aggregations succeed, their counts sum to the
number of rows of the input table. -/
theorem c3_partition_exhaustive (df : List SurveyRow)
    (h01 : ∀ r ∈ df, r.diabetes_binary = 0 ∨ r.diabetes_binary = 1) :
    (∀ r ∈ assignHasDiabetes df,
      (r ∈ selectByStatus (assignHasDiabetes df) "True" ∨
       r ∈ selectByStatus (assignHasDiabetes df) "False") ∧
      ¬(r ∈ selectByStatus (assignHasDiabetes df) "True" ∧
        r ∈ selectByStatus (assignHasDiabetes df) "False")) ∧
    (∀ a b, (diabetic_salary_prep df "True").1 = some a →
      (diabetic_salary_prep df "False").1 = some b →
      sumCounts a + sumCounts b = df.length) := by
  have hfalse : ("False" : String) ≠ "True" := by decide
  constructor
  · intro r hr
    rw [selectByStatus_of_ne _ _ hfalse, selectByStatus_true]
    cases h : r.hasDiabetesCol.getD false <;>
      simp [List.mem_filter, hr, h]
  · intro a b ha hb
    have hta := sumCounts_recodeIncome ha
    have htb := sumCounts_recodeIncome hb
    rw [hta, htb, sum_groupSizes_eq_length, sum_groupSizes_eq_length,
      selectByStatus_of_ne _ _ hfalse, selectByStatus_true,
      length_filter_add_length_filter_not]
    simp [assignHasDiabetes]

/-- Witness for C3 on the three-row scenario table. -/
theorem c3_partition_exhaustive_check :
    sumCounts [{ income := 3, hasDiabetes := true, count := 2,
                 incomeBracket := "$15,000 - $20,000" }] +
    sumCounts [{ income := 3, hasDiabetes := false, count := 1,
                 incomeBracket := "$15,000 - $20,000" }] = demoSurvey.length :=
  (c3_partition_exhaustive demoSurvey (by decide)).2 _ _ rfl rfl

/-- The income codes the CDC survey documents. -/
def incomeDomain : List Nat := [1, 2, 3, 4, 5, 6, 7, 8, 77, 99]

/-- The general-health codes the CDC survey documents. -/
def genHlthDomain : List Nat := [1, 2, 3, 4, 5, 7, 9]

/-- C4: both CodeMap lookups are defined on every code of their declared
domain, and return the documented labels; in particular income code 1 maps
to "Less than $10,000" and general-health code 3 maps to "Good". -/
theorem c4_codemap_domains (c : Nat) :
    (c ∈ incomeDomain → (income_code_to_text c).isSome = true) ∧
    (c ∈ genHlthDomain → (gen_hlth_mapping c).isSome = true) ∧
    income_code_to_text 1 = some "Less than $10,000" ∧
    gen_hlth_mapping 3 = some "Good" := by
  refine ⟨?_, ?_, rfl, rfl⟩ <;> intro hc <;> fin_cases hc <;> rfl

/-- Witness for C4 at concrete in-domain codes. -/
theorem c4_codemap_domains_check :
    (income_code_to_text 3).isSome = true ∧ (gen_hlth_mapping 5).isSome = true :=
  ⟨(c4_codemap_domains 3).1 (by decide), (c4_codemap_domains 5).2.1 (by decide)⟩

theorem recodeIncome_eq_none {gs : List (Nat × Bool × Nat)} {t : Nat × Bool × Nat}
    (ht : t ∈ gs) (hbad : income_code_to_text t.1 = none) :
    recodeIncome gs = none := by
  induction gs with
  | nil => cases ht
  | cons a as ih =>
    simp only [recodeIncome]
    rcases List.mem_cons.mp ht with h | h
    · subst h
      rw [hbad]
    · rw [ih h]
      cases income_code_to_text a.1 <;> rfl

theorem assignGenHealth_eq_none {l : List SurveyRow} {r : SurveyRow}
    (hr : r ∈ l) (hbad : gen_hlth_mapping r.genHlth = none) :
    assignGenHealth l = none := by
  induction l with
  | nil => cases hr
  | cons a as ih =>
    simp only [assignGenHealth]
    rcases List.mem_cons.mp hr with h | h
    · subst h
      rw [hbad]
    · rw [ih h]
      cases gen_hlth_mapping a.genHlth <;> rfl

theorem recodeIncome_labels {gs : List (Nat × Bool × Nat)} {rows : List AggregateRow}
    (h : recodeIncome gs = some rows) :
    ∀ a ∈ rows, income_code_to_text a.income = some a.incomeBracket := by
  induction gs generalizing rows with
  | nil =>
    simp only [recodeIncome, Option.some.injEq] at h
    subst h
    simp
  | cons t ts ih =>
    simp only [recodeIncome] at h
    cases hl : income_code_to_text t.1 <;> rw [hl] at h
    · exact absurd h (by simp)
    · cases hr : recodeIncome ts <;> rw [hr] at h
      · exact absurd h (by simp)
      · simp only [Option.some.injEq] at h
        subst h
        intro a ha
        rcases List.mem_cons.mp ha with h | h
        · subst h
          exact hl
        · exact ih hr a h

/-- C5 counterexample: a survey containing a record with the out-of-domain
income code 98 does not always make `diabetic_salary_prep` fail — when the
record sits in the partition the flag discards (`"False"` here, while the
record is diabetic), the call succeeds. -/
theorem c5_counterexample :
    ((diabetic_salary_prep
      [{ diabetes_binary := 1, income := 98, genHlth := 1, bmi := 0 }] "False").1).isSome
      = true := rfl

/-- C5 amended: `diabetic_salary_prep` fails whenever an out-of-domain income
code occurs in the partition the flag selects (records of the discarded
partition never reach the lookup); `gen_health_prep` fails whenever an
out-of-domain general-health code occurs anywhere in the table, for either
flag; and on success every aggregate label is the CodeMap image of its income
code — never a silently substituted default. -/
theorem c5_lookup_failure (df : List SurveyRow) (s : String) (r : SurveyRow) :
    (r ∈ selectByStatus (assignHasDiabetes df) s → income_code_to_text r.income = none →
      (diabetic_salary_prep df s).1 = none) ∧
    (r ∈ df → gen_hlth_mapping r.genHlth = none → (gen_health_prep df s).1 = none) ∧
    (∀ rows, (diabetic_salary_prep df s).1 = some rows →
      ∀ a ∈ rows, income_code_to_text a.income = some a.incomeBracket) := by
  refine ⟨?_, ?_, ?_⟩
  · intro hmem hbad
    have hkey : rowKey r ∈ (selectByStatus (assignHasDiabetes df) s).map rowKey :=
      List.mem_map_of_mem _ hmem
    have hkey2 : rowKey r ∈ ((selectByStatus (assignHasDiabetes df) s).map rowKey).dedup :=
      List.mem_dedup.mpr hkey
    have hkey3 : rowKey r ∈
        sortKeys (((selectByStatus (assignHasDiabetes df) s).map rowKey).dedup) :=
      (List.perm_insertionSort _ _).mem_iff.mpr hkey2
    have hgs := List.mem_map_of_mem
      (fun k => (k.1, k.2,
        ((selectByStatus (assignHasDiabetes df) s).filter
          (fun x => decide (rowKey x = k))).length)) hkey3
    exact recodeIncome_eq_none hgs hbad
  · intro hmem hbad
    have hmem2 : ({ r with hasDiabetesCol := some (rowHasDiabetes r) } : SurveyRow)
        ∈ assignHasDiabetes df :=
      List.mem_map_of_mem (fun x => { x with hasDiabetesCol := some (rowHasDiabetes x) }) hmem
    have h1 : assignGenHealth (assignHasDiabetes df) = none :=
      assignGenHealth_eq_none hmem2 hbad
    simp [gen_health_prep, h1]
  · intro rows h
    exact recodeIncome_labels h

/-- Witness for C5's amended statement: income code 98 in the selected
partition makes `diabetic_salary_prep` fail. -/
theorem c5_lookup_failure_check :
    (diabetic_salary_prep
      [{ diabetes_binary := 1, income := 98, genHlth := 1, bmi := 0 }] "True").1 = none :=
  (c5_lookup_failure
    [{ diabetes_binary := 1, income := 98, genHlth := 1, bmi := 0 }] "True"
    { diabetes_binary := 1, income := 98, genHlth := 1, bmi := 0,
      hasDiabetesCol := some true }).1 (by decide) rfl

/-- C6: the BMI ceiling applied after `diabetic_bmi_prep` is an inclusive
upper bound: a prepared record with BMI exactly the ceiling is retained, one
with BMI one unit above is excluded. -/
theorem c6_bmi_ceiling (df : List SurveyRow) (c : ℚ) (r : SurveyRow)
    (hr : r ∈ diabetic_bmi_prep df) :
    (r.bmi = c → r ∈ bmi_ceiling_filter (diabetic_bmi_prep df) c) ∧
    (r.bmi = c + 1 → r ∉ bmi_ceiling_filter (diabetic_bmi_prep df) c) := by
  constructor
  · intro hb
    exact List.mem_filter.mpr ⟨hr, by simp [hb]⟩
  · intro hb hmem
    have h2 := (List.mem_filter.mp hmem).2
    rw [hb] at h2
    simp only [decide_eq_true_eq] at h2
    linarith

/-- Witness for C6 at BMI exactly the ceiling. -/
theorem c6_bmi_ceiling_check :
    ({ diabetes_binary := 0, income := 1, genHlth := 1, bmi := 30,
       hasDiabetesBinCol := some false,
       diabeticStatusCol := some "Non-Diabetic" } : SurveyRow) ∈
      bmi_ceiling_filter
        (diabetic_bmi_prep
          [{ diabetes_binary := 0, income := 1, genHlth := 1, bmi := 30 }]) 30 :=
  (c6_bmi_ceiling [{ diabetes_binary := 0, income := 1, genHlth := 1, bmi := 30 }] 30
    { diabetes_binary := 0, income := 1, genHlth := 1, bmi := 30,
      hasDiabetesBinCol := some false,
      diabeticStatusCol := some "Non-Diabetic" } (by decide)).1 rfl

/-- C7 counterexample: the preparation functions do mutate the survey table
passed to them — `diabetic_bmi_prep` returns the shared table with two new
columns assigned, so the table after the call differs from the loaded one. -/
theorem c7_counterexample :
    ¬ (diabetic_bmi_prep [{ diabetes_binary := 1, income := 3, genHlth := 2, bmi := 0 }] =
       [{ diabetes_binary := 1, income := 3, genHlth := 2, bmi := 0 }]) := by
  decide

theorem map_rowData_update (df : List SurveyRow) (f : SurveyRow → SurveyRow)
    (hf : ∀ r, rowData (f r) = rowData r) :
    (df.map f).map rowData = df.map rowData := by
  rw [List.map_map]
  exact List.map_congr_left (fun a _ => hf a)

theorem assignGenHealth_rowData {l l' : List SurveyRow}
    (h : assignGenHealth l = some l') : l'.map rowData = l.map rowData := by
  induction l generalizing l' with
  | nil =>
    simp only [assignGenHealth, Option.some.injEq] at h
    subst h
    rfl
  | cons r rs ih =>
    simp only [assignGenHealth] at h
    cases hg : gen_hlth_mapping r.genHlth <;> rw [hg] at h
    · exact absurd h (by simp)
    · cases ha : assignGenHealth rs <;> rw [ha] at h
      · exact absurd h (by simp)
      · simp only [Option.some.injEq] at h
        subst h
        simp only [List.map_cons, ih ha]
        rfl

/-- C7 amended: the preparation functions mutate the shared table only by
assigning derived label columns; the loaded data fields (`Diabetes_binary`,
`Income`, `GenHlth`, `BMI`) of every row, and the number and order of rows,
are unchanged by any of the three calls. -/
theorem c7_data_columns_preserved (df : List SurveyRow) (s : String) :
    ((diabetic_salary_prep df s).2).map rowData = df.map rowData ∧
    (diabetic_bmi_prep df).map rowData = df.map rowData ∧
    ((gen_health_prep df s).2).map rowData = df.map rowData := by
  refine ⟨?_, ?_, ?_⟩
  · exact map_rowData_update df _ (fun r => rfl)
  · calc (diabetic_bmi_prep df).map rowData
        = (df.map (fun r => { r with hasDiabetesBinCol := some (rowHasDiabetes r) })).map
            rowData := map_rowData_update _ _ (fun r => rfl)
      _ = df.map rowData := map_rowData_update _ _ (fun r => rfl)
  · cases h : assignGenHealth (assignHasDiabetes df) with
    | none =>
      simp only [gen_health_prep, h]
      exact map_rowData_update df _ (fun r => rfl)
    | some df2 =>
      simp only [gen_health_prep, h]
      calc (assignDiabetesHR df2).map rowData
          = df2.map rowData := map_rowData_update df2 _ (fun r => rfl)
        _ = (assignHasDiabetes df).map rowData := assignGenHealth_rowData h
        _ = df.map rowData := map_rowData_update df _ (fun r => rfl)

theorem assignGenHealth_eq_some {l : List SurveyRow}
    (hdom : ∀ r ∈ l, (gen_hlth_mapping r.genHlth).isSome = true) :
    assignGenHealth l =
      some (l.map (fun r => { r with genHealthAssessCol := gen_hlth_mapping r.genHlth })) := by
  induction l with
  | nil => rfl
  | cons a as ih =>
    have ha := hdom a (List.mem_cons_self a as)
    rcases Option.isSome_iff_exists.mp ha with ⟨g, hg⟩
    have has : ∀ r ∈ as, (gen_hlth_mapping r.genHlth).isSome = true :=
      fun r hr => hdom r (List.mem_cons_of_mem _ hr)
    simp only [assignGenHealth, ih has, hg, List.map_cons]

/-- C9: on a 0/1-indicator survey whose general-health codes are all
in-domain, and a flag that is `"True"` or `"False"`, `gen_health_prep`
returns exactly the records whose diabetes indicator matches the flag, each
carrying the general-health label given by the CodeMap on its own code and a
diabetic-status label that is `"Diabetic"` exactly when the indicator is
1. -/
theorem c9_gen_health (df : List SurveyRow) (s : String)
    (h01 : ∀ r ∈ df, r.diabetes_binary = 0 ∨ r.diabetes_binary = 1)
    (hdom : ∀ r ∈ df, (gen_hlth_mapping r.genHlth).isSome = true)
    (hs : s = "True" ∨ s = "False") :
    (gen_health_prep df s).1 =
      some ((df.filter (fun r =>
          if s = "True" then rowHasDiabetes r else !(rowHasDiabetes r))).map
        (fun r => { r with hasDiabetesCol := some (rowHasDiabetes r),
                           genHealthAssessCol := gen_hlth_mapping r.genHlth,
                           hasDiabetesHRCol := some (diabetesHRStr r) })) := by
  have hdom1 : ∀ x ∈ assignHasDiabetes df, (gen_hlth_mapping x.genHlth).isSome = true := by
    intro x hx
    rcases List.mem_map.mp hx with ⟨r, hr, rfl⟩
    exact hdom r hr
  have hmain := assignGenHealth_eq_some hdom1
  rcases hs with rfl | rfl
  · have ht : (fun r : SurveyRow =>
        if ("True" : String) = "True" then rowHasDiabetes r else !(rowHasDiabetes r))
        = fun r => rowHasDiabetes r := by
      funext r
      rw [if_pos rfl]
    simp only [gen_health_prep, hmain]
    simp only [selectByStatus_true, ht, Option.some.injEq, assignHasDiabetes,
      assignDiabetesHR, List.map_map, List.filter_map]
    rfl
  · have hne : ¬ (("False" : String) = "True") := by decide
    have hfp : (fun r : SurveyRow =>
        if ("False" : String) = "True" then rowHasDiabetes r else !(rowHasDiabetes r))
        = fun r => !(rowHasDiabetes r) := by
      funext r
      rw [if_neg hne]
    simp only [gen_health_prep, hmain]
    simp only [selectByStatus_of_ne _ _ hne, hfp, Option.some.injEq, assignHasDiabetes,
      assignDiabetesHR, List.map_map, List.filter_map]
    rfl

/-- Witness for C9 on the three-row scenario table with flag `"True"`. -/
theorem c9_gen_health_check :
    (gen_health_prep demoSurvey "True").1 =
      some ((demoSurvey.filter (fun r =>
          if ("True" : String) = "True" then rowHasDiabetes r else !(rowHasDiabetes r))).map
        (fun r => { r with hasDiabetesCol := some (rowHasDiabetes r),
                           genHealthAssessCol := gen_hlth_mapping r.genHlth,
                           hasDiabetesHRCol := some (diabetesHRStr r) })) :=
  c9_gen_health demoSurvey "True" (by decide) (by decide) (Or.inl rfl)

/-- C10: any status string other than exactly `"True"` selects the
non-diabetic partition: both preparation functions return the same value and
leave the same table state as a call with `"False"`. -/
theorem c10_nontrue_flag (df : List SurveyRow) (s : String) (hs : s ≠ "True") :
    diabetic_salary_prep df s = diabetic_salary_prep df "False" ∧
    gen_health_prep df s = gen_health_prep df "False" := by
  have hfalse : ("False" : String) ≠ "True" := by decide
  have hsel : ∀ d : List SurveyRow, selectByStatus d s = selectByStatus d "False" := by
    intro d
    rw [selectByStatus_of_ne d s hs, selectByStatus_of_ne d "False" hfalse]
  constructor
  · simp [diabetic_salary_prep, hsel]
  · cases h : assignGenHealth (assignHasDiabetes df) <;>
      simp [gen_health_prep, h, hsel]

/-- Witness for C10 at the lowercase flag string `"true"`. -/
theorem c10_nontrue_flag_check :
    diabetic_salary_prep demoSurvey "true" = diabetic_salary_prep demoSurvey "False" :=
  (c10_nontrue_flag demoSurvey "true" (by decide)).1
